import Mathlib

/-!
# Verification of the personal-finance store layer

Shallow embedding of the state and derivation logic of the
`financas-pessoais` client: the Transaction, Budget and Account stores
(`src/contexts/TransactionsContext.jsx`, `BudgetsContext.jsx`,
`AccountsContext.jsx`).

Modelling conventions:
* JavaScript numbers (amounts, balances) are modelled as rationals `ℚ`.
* A JavaScript `Date` value is modelled as a normalized calendar instant
  `DateTime` (year, month 1–12, day, hour, minute, second, millisecond);
  `Date` comparison via timestamps coincides with lexicographic comparison
  of these fields on normalized instants, which `DateTime.leb` implements.
* `new Date(year, month, 0, 23, 59, 59)` (day 0 of the next month index,
  i.e. the last day of the given month, milliseconds defaulting to 0) is
  modelled via `daysInMonth`, which follows the Gregorian rules that the
  JavaScript `Date` constructor normalizes with.
* An `async` store mutation that awaits one API call is modelled as a pure
  function from the pre-call store state and the API outcome
  (`Except String payload`) to the post-call store state paired with what
  the function returns or re-throws to its caller.
-/

namespace Financas

/-- A normalized calendar instant, standing for a JavaScript `Date` value.
Month is the calendar month 1–12 (not the 0-based `Date` month index). -/
structure DateTime where
  year : Nat
  month : Nat
  day : Nat
  hour : Nat
  minute : Nat
  second : Nat
  ms : Nat
deriving DecidableEq, Repr

/-- Timestamp order on normalized instants: lexicographic on the fields.
Models `d1 <= d2` on JavaScript `Date` values. -/
def DateTime.leb (a b : DateTime) : Bool :=
  if a.year ≠ b.year then decide (a.year < b.year)
  else if a.month ≠ b.month then decide (a.month < b.month)
  else if a.day ≠ b.day then decide (a.day < b.day)
  else if a.hour ≠ b.hour then decide (a.hour < b.hour)
  else if a.minute ≠ b.minute then decide (a.minute < b.minute)
  else if a.second ≠ b.second then decide (a.second < b.second)
  else decide (a.ms ≤ b.ms)

/-- Gregorian leap-year rule, as normalized by the JavaScript `Date`
constructor. -/
def isLeapYear (y : Nat) : Bool :=
  (y % 4 == 0 && y % 100 != 0) || (y % 400 == 0)

/-- Number of days of calendar month `m` (1–12) of year `y`: the day of the
month that `new Date(y, m, 0)` normalizes to. -/
def daysInMonth (y m : Nat) : Nat :=
  if m = 2 then (if isLeapYear y then 29 else 28)
  else if m = 4 ∨ m = 6 ∨ m = 9 ∨ m = 11 then 30
  else 31

/-- `new Date(year, month - 1, 1)` for calendar month `month`: the first
instant of the month (`BudgetsContext.jsx:196`). -/
def monthStart (year month : Nat) : DateTime :=
  ⟨year, month, 1, 0, 0, 0, 0⟩

/-- `new Date(year, month, 0, 23, 59, 59)` for calendar month `month`: last
day of the month at 23:59:59.000 (`BudgetsContext.jsx:197`). -/
def monthEnd (year month : Nat) : DateTime :=
  ⟨year, month, daysInMonth year month, 23, 59, 59, 0⟩

/-- `TRANSACTION_TYPES` (`TransactionsContext.jsx:9`). -/
inductive TransactionType
  | income
  | expense
deriving DecidableEq, Repr

/-- `TRANSACTION_STATUS` (`TransactionsContext.jsx:39`). -/
inductive TransactionStatus
  | completed
  | pending
  | cancelled
deriving DecidableEq, Repr

/-- A category record as joined onto transactions by the list endpoint
(`CATEGORIES`, `TransactionsContext.jsx:15`). -/
structure Category where
  id : String
  name : String
  icon : String
  color : String
deriving DecidableEq, Repr

/-- A transaction record (§3 of the data model). -/
structure Transaction where
  id : String
  date : DateTime
  amount : ℚ
  type : TransactionType
  category : Category
  accountId : String
  status : TransactionStatus
deriving DecidableEq, Repr

/-- A budget record (§3 of the data model). -/
structure Budget where
  id : String
  name : String
  categoryId : String
  amount : ℚ
  year : Nat
  month : Nat
  isActive : Bool
  description : String
deriving DecidableEq, Repr

/-- `BUDGET_STATUS` (`BudgetsContext.jsx:9`). -/
inductive BudgetStatus
  | on_track
  | warning
  | exceeded
deriving DecidableEq, Repr

/-- `ACCOUNT_TYPES` (`AccountsContext.jsx:8`). -/
inductive AccountType
  | checking
  | savings
  | credit
  | cash
  | investment
deriving DecidableEq, Repr

/-- An account record (§4.4 of the data model). -/
structure Account where
  id : String
  name : String
  type : AccountType
  balance : ℚ
  isActive : Bool
deriving DecidableEq, Repr

/-- `getTransactionsByPeriod(startDate, endDate)`
(`TransactionsContext.jsx:232`). -/
def getTransactionsByPeriod (transactions : List Transaction)
    (startDate endDate : DateTime) : List Transaction :=
  transactions.filter fun transaction =>
    DateTime.leb startDate transaction.date &&
      DateTime.leb transaction.date endDate

/-- `getTransactionsByCategory(categoryId)`
(`TransactionsContext.jsx:240`). -/
def getTransactionsByCategory (transactions : List Transaction)
    (categoryId : String) : List Transaction :=
  transactions.filter fun transaction =>
    transaction.category.id == categoryId

/-- `getTotalIncome(startDate, endDate)` (`TransactionsContext.jsx:250`).
The optional bounds model the `startDate && endDate` truthiness test:
`Date` objects are always truthy, absent arguments are falsy. -/
def getTotalIncome (transactions : List Transaction)
    (startDate endDate : Option DateTime) : ℚ :=
  let selected := match startDate, endDate with
    | some s, some e => getTransactionsByPeriod transactions s e
    | _, _ => transactions
  (selected.filter fun t =>
      t.type == TransactionType.income &&
        t.status == TransactionStatus.completed).foldl
    (fun total t => total + t.amount) 0

/-- `getTotalExpenses(startDate, endDate)` (`TransactionsContext.jsx:261`). -/
def getTotalExpenses (transactions : List Transaction)
    (startDate endDate : Option DateTime) : ℚ :=
  let selected := match startDate, endDate with
    | some s, some e => getTransactionsByPeriod transactions s e
    | _, _ => transactions
  (selected.filter fun t =>
      t.type == TransactionType.expense &&
        t.status == TransactionStatus.completed).foldl
    (fun total t => total + t.amount) 0

/-- `getCategorySpent(categoryId, year, month)` (`BudgetsContext.jsx:195`).
The transaction list stands for the Transaction Store state consulted via
`getTransactionsByCategory`. -/
def getCategorySpent (transactions : List Transaction)
    (categoryId : String) (year month : Nat) : ℚ :=
  let startDate := monthStart year month
  let endDate := monthEnd year month
  ((getTransactionsByCategory transactions categoryId).filter fun t =>
      DateTime.leb startDate t.date && DateTime.leb t.date endDate &&
        t.type == TransactionType.expense).foldl
    (fun total t => total + t.amount) 0

/-- `getBudgetStatus(budget)` (`BudgetsContext.jsx:212`). -/
def getBudgetStatus (transactions : List Transaction) (budget : Budget) :
    BudgetStatus :=
  let spent := getCategorySpent transactions budget.categoryId
    budget.year budget.month
  let percentage := spent / budget.amount * 100
  if 100 ≤ percentage then BudgetStatus.exceeded
  else if 80 ≤ percentage then BudgetStatus.warning
  else BudgetStatus.on_track

/-- The derived record produced by `getBudgetsWithSpent`: the budget's own
fields spread together with the computed spend data. -/
structure BudgetWithSpent extends Budget where
  spent : ℚ
  remaining : ℚ
  percentage : ℚ
  status : BudgetStatus
deriving DecidableEq, Repr

/-- `getBudgetsWithSpent()` (`BudgetsContext.jsx:226`). -/
def getBudgetsWithSpent (budgets : List Budget)
    (transactions : List Transaction) : List BudgetWithSpent :=
  budgets.map fun budget =>
    let spent := getCategorySpent transactions budget.categoryId
      budget.year budget.month
    let remaining := budget.amount - spent
    let percentage := spent / budget.amount * 100
    let status := getBudgetStatus transactions budget
    { budget with
        spent := spent
        remaining := remaining
        percentage := min percentage 100
        status := status }

/-- `getTotalBudgeted(year, month)` (`BudgetsContext.jsx:244`). -/
def getTotalBudgeted (budgets : List Budget) (year month : Nat) : ℚ :=
  (budgets.filter fun budget =>
      budget.year == year && budget.month == month && budget.isActive).foldl
    (fun total budget => total + budget.amount) 0

/-- `getTotalSpent(year, month)` (`BudgetsContext.jsx:255`). -/
def getTotalSpent (budgets : List Budget) (transactions : List Transaction)
    (year month : Nat) : ℚ :=
  (budgets.filter fun budget =>
      budget.year == year && budget.month == month && budget.isActive).foldl
    (fun total budget =>
      total + getCategorySpent transactions budget.categoryId
        budget.year budget.month) 0

/-- `getTotalBalance()` (`AccountsContext.jsx:184`). -/
def getTotalBalance (accounts : List Account) : ℚ :=
  (accounts.filter fun account =>
      account.isActive && account.type != AccountType.credit).foldl
    (fun total account => total + account.balance) 0

/-- `getTotalDebt()` (`AccountsContext.jsx:191`). -/
def getTotalDebt (accounts : List Account) : ℚ :=
  |(accounts.filter fun account =>
      account.isActive && account.type == AccountType.credit &&
        account.balance < 0).foldl
    (fun total account => total + account.balance) 0|

/-- Budget Store state (`BudgetsContext.jsx:27`). -/
structure BudgetsState where
  budgets : List Budget
  isLoading : Bool
  error : Option String
deriving DecidableEq, Repr

/-- `BUDGETS_ACTIONS` (`BudgetsContext.jsx:16`), each with its payload. -/
inductive BudgetsAction
  | load (payload : List Budget)
  | add (payload : Budget)
  | update (payload : Budget)
  | delete (payload : String)
  | setLoading (payload : Bool)
  | setError (payload : String)
  | clearError

/-- `budgetsReducer` (`BudgetsContext.jsx:34`). -/
def budgetsReducer (state : BudgetsState) (action : BudgetsAction) :
    BudgetsState :=
  match action with
  | .load payload =>
      { state with budgets := payload, isLoading := false, error := none }
  | .add payload =>
      { state with
          budgets := state.budgets ++ [payload]
          isLoading := false
          error := none }
  | .update payload =>
      { state with
          budgets := state.budgets.map (fun budget =>
            if budget.id = payload.id then payload else budget)
          isLoading := false
          error := none }
  | .delete payload =>
      { state with
          budgets := state.budgets.filter (fun budget => budget.id != payload)
          isLoading := false
          error := none }
  | .setLoading payload => { state with isLoading := payload }
  | .setError payload => { state with error := some payload, isLoading := false }
  | .clearError => { state with error := none }

/-- `addBudget(budgetData)` (`BudgetsContext.jsx:145`): dispatches
`SET_LOADING true`, awaits the API call, then on success dispatches
`ADD_BUDGET` with the returned record and returns it; on failure dispatches
`SET_ERROR` with the message and re-throws it. The API outcome is the
`Except` argument; the second component is what the caller receives. -/
def addBudget (state : BudgetsState) (apiResult : Except String Budget) :
    BudgetsState × Except String Budget :=
  let st := budgetsReducer state (.setLoading true)
  match apiResult with
  | .ok newBudget => (budgetsReducer st (.add newBudget), .ok newBudget)
  | .error msg => (budgetsReducer st (.setError msg), .error msg)

/-- `updateBudget(budgetId, updates)` (`BudgetsContext.jsx:162`). The
`budgetId` only addresses the API endpoint; the dispatched payload is the
record the API returns. -/
def updateBudget (state : BudgetsState) (_budgetId : String)
    (apiResult : Except String Budget) :
    BudgetsState × Except String Budget :=
  let st := budgetsReducer state (.setLoading true)
  match apiResult with
  | .ok updatedBudget =>
      (budgetsReducer st (.update updatedBudget), .ok updatedBudget)
  | .error msg => (budgetsReducer st (.setError msg), .error msg)

/-- `deleteBudget(budgetId)` (`BudgetsContext.jsx:179`). -/
def deleteBudget (state : BudgetsState) (budgetId : String)
    (apiResult : Except String Unit) : BudgetsState × Except String Unit :=
  let st := budgetsReducer state (.setLoading true)
  match apiResult with
  | .ok _ => (budgetsReducer st (.delete budgetId), .ok ())
  | .error msg => (budgetsReducer st (.setError msg), .error msg)

/-- Transaction Store state (`TransactionsContext.jsx:57`). -/
structure TransactionsState where
  transactions : List Transaction
  isLoading : Bool
  error : Option String
deriving DecidableEq, Repr

/-- `TRANSACTIONS_ACTIONS` (`TransactionsContext.jsx:46`). -/
inductive TransactionsAction
  | load (payload : List Transaction)
  | add (payload : Transaction)
  | update (payload : Transaction)
  | delete (payload : String)
  | setLoading (payload : Bool)
  | setError (payload : String)
  | clearError

/-- `transactionsReducer` (`TransactionsContext.jsx:64`). Note
`ADD_TRANSACTION` prepends the payload. -/
def transactionsReducer (state : TransactionsState)
    (action : TransactionsAction) : TransactionsState :=
  match action with
  | .load payload =>
      { state with transactions := payload, isLoading := false, error := none }
  | .add payload =>
      { state with
          transactions := payload :: state.transactions
          isLoading := false
          error := none }
  | .update payload =>
      { state with
          transactions := state.transactions.map (fun transaction =>
            if transaction.id = payload.id then payload else transaction)
          isLoading := false
          error := none }
  | .delete payload =>
      { state with
          transactions := state.transactions.filter (fun transaction =>
            transaction.id != payload)
          isLoading := false
          error := none }
  | .setLoading payload => { state with isLoading := payload }
  | .setError payload => { state with error := some payload, isLoading := false }
  | .clearError => { state with error := none }

/-- `addTransaction(transactionData)` (`TransactionsContext.jsx:173`). The
success branch additionally triggers `loadAccounts()` on the Account Store
collaborator, which does not touch this store's state and is elided here. -/
def addTransaction (state : TransactionsState)
    (apiResult : Except String Transaction) :
    TransactionsState × Except String Transaction :=
  let st := transactionsReducer state (.setLoading true)
  match apiResult with
  | .ok newTransaction =>
      (transactionsReducer st (.add newTransaction), .ok newTransaction)
  | .error msg => (transactionsReducer st (.setError msg), .error msg)

/-- `updateTransaction(transactionId, updates)`
(`TransactionsContext.jsx:194`). -/
def updateTransaction (state : TransactionsState) (_transactionId : String)
    (apiResult : Except String Transaction) :
    TransactionsState × Except String Transaction :=
  let st := transactionsReducer state (.setLoading true)
  match apiResult with
  | .ok updatedTransaction =>
      (transactionsReducer st (.update updatedTransaction),
        .ok updatedTransaction)
  | .error msg => (transactionsReducer st (.setError msg), .error msg)

/-- `deleteTransaction(transactionId)` (`TransactionsContext.jsx:214`). -/
def deleteTransaction (state : TransactionsState) (transactionId : String)
    (apiResult : Except String Unit) :
    TransactionsState × Except String Unit :=
  let st := transactionsReducer state (.setLoading true)
  match apiResult with
  | .ok _ => (transactionsReducer st (.delete transactionId), .ok ())
  | .error msg => (transactionsReducer st (.setError msg), .error msg)

/-- The spec's description of `categorySpent` (§4.3), written from its
words: sum of `amount` over exactly the stored transactions whose category
id matches, whose date falls in the closed month window, and whose type is
`expense` — with no condition on `status`. Compared against
`getCategorySpent` for the refinement claim. -/
def categorySpentSpec (transactions : List Transaction) (categoryId : String)
    (year month : Nat) : ℚ :=
  ((transactions.filter fun t =>
      t.category.id == categoryId &&
        ((monthStart year month).leb t.date && t.date.leb (monthEnd year month) &&
          t.type == TransactionType.expense)).map Transaction.amount).sum

/-- Concrete fixture: the `food` expense category
(`CATEGORIES.EXPENSE.FOOD`). -/
def foodCategory : Category :=
  ⟨"food", "Alimentacao", "comida", "#e67e22"⟩

/-- Concrete fixture: a completed `food` expense of the given amount at the
given instant. -/
def foodExpense (ident : String) (amount : ℚ) (date : DateTime) : Transaction :=
  ⟨ident, date, amount, TransactionType.expense, foodCategory, "acc1",
    TransactionStatus.completed⟩

/-- Concrete fixture: an active March-2024 `food` budget with ceiling 500. -/
def witBudget : Budget :=
  ⟨"b1", "Mercado", "food", 500, 2024, 3, true, ""⟩

/-- Concrete fixture: a second active March-2024 `food` budget, ceiling 300. -/
def witBudget2 : Budget :=
  ⟨"b2", "Restaurantes", "food", 300, 2024, 3, true, ""⟩

/-- Concrete fixture: one completed `food` expense of 450 inside March 2024. -/
def witTxs : List Transaction :=
  [foodExpense "t1" 450 ⟨2024, 3, 15, 12, 0, 0, 0⟩]

/-- Concrete fixture: an active credit account with negative balance −300. -/
def witCreditNeg : Account :=
  ⟨"c1", "Cartao 1", AccountType.credit, -300, true⟩

/-- Concrete fixture: an active credit account with positive balance +50. -/
def witCreditPos : Account :=
  ⟨"c2", "Cartao 2", AccountType.credit, 50, true⟩

/-- Concrete fixture: an active checking account with balance 1000. -/
def witChecking : Account :=
  ⟨"a1", "Conta corrente", AccountType.checking, 1000, true⟩

/-- Concrete fixture: a `food` expense at the last modelled instant of
March 2024 (March 31, 23:59:59.000). -/
def witLastInstant : Transaction :=
  foodExpense "tL" 100 ⟨2024, 3, 31, 23, 59, 59, 0⟩

/-- Concrete fixture: a `food` expense at the first instant of April 2024. -/
def witNextInstant : Transaction :=
  foodExpense "tN" 100 ⟨2024, 4, 1, 0, 0, 0, 0⟩

/-- Concrete fixture: the record `getBudgetsWithSpent` derives for
`witBudget` when no transaction is stored. -/
def witRecord : BudgetWithSpent :=
  ⟨witBudget, 0, 500, 0, BudgetStatus.on_track⟩

/-- Concrete fixture: a Budget Store state holding only `witBudget`. -/
def witBudgetsState : BudgetsState :=
  ⟨[witBudget], false, none⟩

/-- Concrete fixture: a budget whose id matches nothing in
`witBudgetsState`. -/
def witUnmatchedBudget : Budget :=
  ⟨"b999", "Novo", "transport", 200, 2024, 4, true, ""⟩

/-- Folding `+ f x` over a list equals the initial value plus the sum of the
mapped list: bridges the source's `reduce` to `List.sum`. -/
theorem foldl_add_eq {α : Type} (f : α → ℚ) (init : ℚ) (l : List α) :
    l.foldl (fun total x => total + f x) init = init + (l.map f).sum := by
  induction l generalizing init with
  | nil => simp
  | cons a l ih =>
    simp [List.foldl_cons, ih]
    ring

/-- Every calendar month has at least 28 days. -/
theorem daysInMonth_ge (y m : Nat) : 28 ≤ daysInMonth y m := by
  unfold daysInMonth
  split_ifs <;> norm_num

/-- The timestamp order is reflexive. -/
theorem DateTime.leb_refl (a : DateTime) : a.leb a = true := by
  simp [DateTime.leb]

/-- The first instant of a month precedes its last modelled instant. -/
theorem leb_monthStart_monthEnd (y mo : Nat) :
    (monthStart y mo).leb (monthEnd y mo) = true := by
  have h : 1 < daysInMonth y mo := lt_of_lt_of_le (by norm_num) (daysInMonth_ge y mo)
  simp [monthStart, monthEnd, DateTime.leb, h, h.ne]

/-- The first instant of the following month lies strictly after the month
window's upper bound. -/
theorem next_month_start_not_leb (y mo : Nat) :
    DateTime.leb
      (if mo = 12 then ⟨y + 1, 1, 1, 0, 0, 0, 0⟩ else ⟨y, mo + 1, 1, 0, 0, 0, 0⟩)
      (monthEnd y mo) = false := by
  by_cases h : mo = 12
  · subst h
    simp [DateTime.leb, monthEnd]
  · simp [h, DateTime.leb, monthEnd]

/-- Summing `g` over a filtered list is unchanged by first mapping an
element transformation that the filter predicate and `g` cannot observe. -/
theorem sum_map_filter_map_eq {α : Type} (f : α → α) (p : α → Bool) (g : α → ℚ)
    (hp : ∀ a, p (f a) = p a) (hg : ∀ a, g (f a) = g a) (l : List α) :
    (((l.map f).filter p).map g).sum = ((l.filter p).map g).sum := by
  induction l with
  | nil => simp
  | cons a l ih =>
    simp only [List.map_cons, List.filter_cons, hp]
    by_cases h : p a = true <;> simp [h, ih, hg]

/-- Replacing list elements by key match is the identity when no element
carries the key. -/
theorem map_replace_id_of_no_match {α β : Type} [DecidableEq β] (key : α → β)
    (k : β) (y : α) (l : List α) (h : ∀ x ∈ l, key x ≠ k) :
    (l.map fun x => if key x = k then y else x) = l := by
  induction l with
  | nil => rfl
  | cons a l ih =>
    simp only [List.map_cons]
    rw [if_neg (h a (List.mem_cons_self a l)),
      ih fun x hx => h x (List.mem_cons_of_mem a hx)]

/-- C1: for every budget with `amount > 0`, `getBudgetStatus` returns
`exceeded` iff the category spend is at least the ceiling (raw percentage
≥ 100), `warning` iff `0.8·amount ≤ spent < amount` (80 ≤ raw percentage
< 100), and `on_track` otherwise. -/
theorem getBudgetStatus_classification (transactions : List Transaction)
    (budget : Budget) (hamt : 0 < budget.amount) :
    (getBudgetStatus transactions budget = BudgetStatus.exceeded ↔
      budget.amount ≤
        getCategorySpent transactions budget.categoryId budget.year budget.month) ∧
    (getBudgetStatus transactions budget = BudgetStatus.warning ↔
      (8 / 10 : ℚ) * budget.amount ≤
          getCategorySpent transactions budget.categoryId budget.year budget.month ∧
        getCategorySpent transactions budget.categoryId budget.year budget.month <
          budget.amount) ∧
    (getBudgetStatus transactions budget = BudgetStatus.on_track ↔
      getCategorySpent transactions budget.categoryId budget.year budget.month <
        (8 / 10 : ℚ) * budget.amount) := by
  simp only [getBudgetStatus]
  generalize getCategorySpent transactions budget.categoryId budget.year budget.month = spent
  have h100 : ((100 : ℚ) ≤ spent / budget.amount * 100) ↔ budget.amount ≤ spent := by
    rw [div_mul_eq_mul_div, le_div_iff₀ hamt]
    constructor <;> intro h <;> nlinarith
  have h80 : ((80 : ℚ) ≤ spent / budget.amount * 100) ↔
      (8 / 10 : ℚ) * budget.amount ≤ spent := by
    rw [div_mul_eq_mul_div, le_div_iff₀ hamt]
    constructor <;> intro h <;> nlinarith
  split_ifs with h1 h2
  · have hge : budget.amount ≤ spent := h100.mp h1
    refine ⟨by simp [hge], ?_, ?_⟩
    · simp only [reduceCtorEq, false_iff, not_and, not_lt]
      exact fun _ => hge
    · simp only [reduceCtorEq, false_iff, not_lt]
      linarith
  · have hw : (8 / 10 : ℚ) * budget.amount ≤ spent := h80.mp h2
    have hlt : spent < budget.amount := by
      by_contra hc
      push_neg at hc
      exact h1 (h100.mpr hc)
    refine ⟨?_, by simp [hw, hlt], ?_⟩
    · simp only [reduceCtorEq, false_iff, not_le]
      exact hlt
    · simp only [reduceCtorEq, false_iff, not_lt]
      exact hw
  · have hlt : spent < (8 / 10 : ℚ) * budget.amount := by
      by_contra hc
      push_neg at hc
      exact h2 (h80.mpr hc)
    refine ⟨?_, ?_, by simp [hlt]⟩
    · simp only [reduceCtorEq, false_iff, not_le]
      linarith
    · simp only [reduceCtorEq, false_iff, not_and, not_lt]
      intro hw
      exact absurd hw (not_le.mpr hlt)

/-- Witness for C1: the classification instantiated at a budget with
ceiling 500 and a single March-2024 expense of 450. -/
theorem getBudgetStatus_classification_witness :
    (0 : ℚ) < witBudget.amount ∧
    ((getBudgetStatus witTxs witBudget = BudgetStatus.exceeded ↔
      witBudget.amount ≤
        getCategorySpent witTxs witBudget.categoryId witBudget.year witBudget.month) ∧
    (getBudgetStatus witTxs witBudget = BudgetStatus.warning ↔
      (8 / 10 : ℚ) * witBudget.amount ≤
          getCategorySpent witTxs witBudget.categoryId witBudget.year witBudget.month ∧
        getCategorySpent witTxs witBudget.categoryId witBudget.year witBudget.month <
          witBudget.amount) ∧
    (getBudgetStatus witTxs witBudget = BudgetStatus.on_track ↔
      getCategorySpent witTxs witBudget.categoryId witBudget.year witBudget.month <
        (8 / 10 : ℚ) * witBudget.amount)) :=
  ⟨by norm_num [witBudget],
    getBudgetStatus_classification witTxs witBudget (by norm_num [witBudget])⟩

/-- C2: `getCategorySpent` counts an expense dated at the month's final day
at 23:59:59 — the closed window `[day 1 00:00:00, last day 23:59:59]` — and
does not count a transaction dated at the first instant of the following
month. -/
theorem categorySpent_month_boundary (categoryId : String) (year month : Nat)
    (tLast tNext : Transaction)
    (hmonth : 1 ≤ month) (hmonth' : month ≤ 12)
    (hcatL : tLast.category.id = categoryId)
    (htypeL : tLast.type = TransactionType.expense)
    (hdateL : tLast.date = ⟨year, month, daysInMonth year month, 23, 59, 59, 0⟩)
    (hcatN : tNext.category.id = categoryId)
    (hdateN : tNext.date =
      if month = 12 then ⟨year + 1, 1, 1, 0, 0, 0, 0⟩
      else ⟨year, month + 1, 1, 0, 0, 0, 0⟩) :
    getCategorySpent [tLast] categoryId year month = tLast.amount ∧
    getCategorySpent [tNext] categoryId year month = 0 := by
  constructor
  · have h1 : DateTime.leb (monthStart year month) tLast.date = true := by
      rw [hdateL]
      exact leb_monthStart_monthEnd year month
    have h2 : DateTime.leb tLast.date (monthEnd year month) = true := by
      rw [hdateL]
      exact DateTime.leb_refl _
    simp [getCategorySpent, getTransactionsByCategory, List.filter_cons, hcatL,
      h1, h2, htypeL]
  · have h2 : DateTime.leb tNext.date (monthEnd year month) = false := by
      rw [hdateN]
      exact next_month_start_not_leb year month
    simp [getCategorySpent, getTransactionsByCategory, List.filter_cons, hcatN, h2]

/-- Witness for C2: the boundary behaviour at March 2024, whose final day
is the 31st. -/
theorem categorySpent_month_boundary_witness :
    (1 ≤ (3 : Nat) ∧ (3 : Nat) ≤ 12 ∧
      witLastInstant.category.id = "food" ∧
      witLastInstant.type = TransactionType.expense ∧
      witLastInstant.date = ⟨2024, 3, daysInMonth 2024 3, 23, 59, 59, 0⟩ ∧
      witNextInstant.category.id = "food" ∧
      witNextInstant.date = (if (3 : Nat) = 12 then ⟨2024 + 1, 1, 1, 0, 0, 0, 0⟩
        else ⟨2024, 3 + 1, 1, 0, 0, 0, 0⟩)) ∧
    getCategorySpent [witLastInstant] "food" 2024 3 = witLastInstant.amount ∧
    getCategorySpent [witNextInstant] "food" 2024 3 = 0 :=
  ⟨⟨by decide, by decide, rfl, rfl, by decide, rfl, by decide⟩,
    categorySpent_month_boundary "food" 2024 3 witLastInstant witNextInstant
      (by decide) (by decide) rfl rfl (by decide) rfl (by decide)⟩

/-- C3: `getCategorySpent` equals the spec's sum — over exactly the stored
transactions matching the category id, the calendar-month window and type
`expense` — and is invariant under any rewriting of transaction `status`,
so pending and cancelled expenses count toward budget consumption. -/
theorem getCategorySpent_spec (transactions : List Transaction)
    (categoryId : String) (year month : Nat)
    (restatus : Transaction → TransactionStatus) :
    getCategorySpent transactions categoryId year month =
      categorySpentSpec transactions categoryId year month ∧
    getCategorySpent (transactions.map fun t => { t with status := restatus t })
        categoryId year month =
      getCategorySpent transactions categoryId year month := by
  have key : ∀ ts : List Transaction,
      getCategorySpent ts categoryId year month =
        categorySpentSpec ts categoryId year month := by
    intro ts
    simp only [getCategorySpent, getTransactionsByCategory, categorySpentSpec]
    rw [List.filter_filter, foldl_add_eq, zero_add]
    refine congrArg List.sum (congrArg (List.map Transaction.amount)
      (List.filter_congr ?_))
    intro a _
    cases h1 : a.category.id == categoryId <;>
      cases h2 : (monthStart year month).leb a.date <;>
        cases h3 : a.date.leb (monthEnd year month) <;>
          cases h4 : a.type == TransactionType.expense <;> simp [h1, h2, h3, h4]
  refine ⟨key transactions, ?_⟩
  rw [key, key]
  simp only [categorySpentSpec]
  apply sum_map_filter_map_eq
  · intro a
    simp
  · intro a
    simp

/-- C4: every record returned by `getBudgetsWithSpent` satisfies
`remaining = amount − spent` and `percentage = min(spent/amount·100, 100)`;
in particular no returned record has `percentage > 100`. -/
theorem getBudgetsWithSpent_fields (budgets : List Budget)
    (transactions : List Transaction) (r : BudgetWithSpent)
    (hr : r ∈ getBudgetsWithSpent budgets transactions) :
    r.remaining = r.toBudget.amount - r.spent ∧
    r.percentage = min (r.spent / r.toBudget.amount * 100) 100 ∧
    r.percentage ≤ 100 := by
  simp only [getBudgetsWithSpent, List.mem_map] at hr
  obtain ⟨b, _, rfl⟩ := hr
  exact ⟨rfl, rfl, min_le_right _ _⟩

/-- Witness for C4: the record derived for `witBudget` over an empty
transaction set. -/
theorem getBudgetsWithSpent_fields_witness :
    witRecord ∈ getBudgetsWithSpent [witBudget] [] ∧
    (witRecord.remaining = witRecord.toBudget.amount - witRecord.spent ∧
      witRecord.percentage =
        min (witRecord.spent / witRecord.toBudget.amount * 100) 100 ∧
      witRecord.percentage ≤ 100) :=
  have hmem : witRecord ∈ getBudgetsWithSpent [witBudget] [] := by
    norm_num [getBudgetsWithSpent, getCategorySpent, getTransactionsByCategory,
      getBudgetStatus, witBudget, witRecord]
  ⟨hmem, getBudgetsWithSpent_fields [witBudget] [] witRecord hmem⟩

/-- C5: every failing mutation of the Budget Store and the Transaction
Store records the failure message as the store's `error` field, re-throws
it to the caller, and leaves the local collection exactly as it was before
the call. -/
theorem mutation_failure_atomicity :
    (∀ (st : BudgetsState) (msg : String),
      (addBudget st (Except.error msg)).1.budgets = st.budgets ∧
      (addBudget st (Except.error msg)).1.error = some msg ∧
      (addBudget st (Except.error msg)).2 = Except.error msg) ∧
    (∀ (st : BudgetsState) (budgetId msg : String),
      (updateBudget st budgetId (Except.error msg)).1.budgets = st.budgets ∧
      (updateBudget st budgetId (Except.error msg)).1.error = some msg ∧
      (updateBudget st budgetId (Except.error msg)).2 = Except.error msg) ∧
    (∀ (st : BudgetsState) (budgetId msg : String),
      (deleteBudget st budgetId (Except.error msg)).1.budgets = st.budgets ∧
      (deleteBudget st budgetId (Except.error msg)).1.error = some msg ∧
      (deleteBudget st budgetId (Except.error msg)).2 = Except.error msg) ∧
    (∀ (st : TransactionsState) (msg : String),
      (addTransaction st (Except.error msg)).1.transactions = st.transactions ∧
      (addTransaction st (Except.error msg)).1.error = some msg ∧
      (addTransaction st (Except.error msg)).2 = Except.error msg) ∧
    (∀ (st : TransactionsState) (transactionId msg : String),
      (updateTransaction st transactionId (Except.error msg)).1.transactions =
          st.transactions ∧
      (updateTransaction st transactionId (Except.error msg)).1.error = some msg ∧
      (updateTransaction st transactionId (Except.error msg)).2 =
        Except.error msg) ∧
    (∀ (st : TransactionsState) (transactionId msg : String),
      (deleteTransaction st transactionId (Except.error msg)).1.transactions =
          st.transactions ∧
      (deleteTransaction st transactionId (Except.error msg)).1.error = some msg ∧
      (deleteTransaction st transactionId (Except.error msg)).2 =
        Except.error msg) :=
  ⟨fun _ _ => ⟨rfl, rfl, rfl⟩,
    fun _ _ _ => ⟨rfl, rfl, rfl⟩,
    fun _ _ _ => ⟨rfl, rfl, rfl⟩,
    fun _ _ => ⟨rfl, rfl, rfl⟩,
    fun _ _ _ => ⟨rfl, rfl, rfl⟩,
    fun _ _ _ => ⟨rfl, rfl, rfl⟩⟩

/-- C6: with both bounds given, `getTotalIncome` / `getTotalExpenses` sum
`amount` over transactions of the matching type with status `completed`
whose date lies in `[start, end]` inclusive; with either bound missing they
sum over the full transaction set under the same type and status filter. -/
theorem totalIncome_totalExpenses_spec :
    (∀ (transactions : List Transaction) (s e : DateTime),
      getTotalIncome transactions (some s) (some e) =
        ((transactions.filter fun t =>
            t.type == TransactionType.income &&
              t.status == TransactionStatus.completed &&
              (DateTime.leb s t.date && DateTime.leb t.date e)).map
          Transaction.amount).sum) ∧
    (∀ (transactions : List Transaction) (oe : Option DateTime),
      getTotalIncome transactions none oe =
        ((transactions.filter fun t =>
            t.type == TransactionType.income &&
              t.status == TransactionStatus.completed).map
          Transaction.amount).sum) ∧
    (∀ (transactions : List Transaction) (s : DateTime),
      getTotalIncome transactions (some s) none =
        ((transactions.filter fun t =>
            t.type == TransactionType.income &&
              t.status == TransactionStatus.completed).map
          Transaction.amount).sum) ∧
    (∀ (transactions : List Transaction) (s e : DateTime),
      getTotalExpenses transactions (some s) (some e) =
        ((transactions.filter fun t =>
            t.type == TransactionType.expense &&
              t.status == TransactionStatus.completed &&
              (DateTime.leb s t.date && DateTime.leb t.date e)).map
          Transaction.amount).sum) ∧
    (∀ (transactions : List Transaction) (oe : Option DateTime),
      getTotalExpenses transactions none oe =
        ((transactions.filter fun t =>
            t.type == TransactionType.expense &&
              t.status == TransactionStatus.completed).map
          Transaction.amount).sum) ∧
    (∀ (transactions : List Transaction) (s : DateTime),
      getTotalExpenses transactions (some s) none =
        ((transactions.filter fun t =>
            t.type == TransactionType.expense &&
              t.status == TransactionStatus.completed).map
          Transaction.amount).sum) := by
  refine ⟨?_, ?_, ?_, ?_, ?_, ?_⟩
  · intro ts s e
    simp only [getTotalIncome, getTransactionsByPeriod]
    rw [List.filter_filter, foldl_add_eq, zero_add]
  · intro ts oe
    simp only [getTotalIncome]
    rw [foldl_add_eq, zero_add]
  · intro ts s
    simp only [getTotalIncome]
    rw [foldl_add_eq, zero_add]
  · intro ts s e
    simp only [getTotalExpenses, getTransactionsByPeriod]
    rw [List.filter_filter, foldl_add_eq, zero_add]
  · intro ts oe
    simp only [getTotalExpenses]
    rw [foldl_add_eq, zero_add]
  · intro ts s
    simp only [getTotalExpenses]
    rw [foldl_add_eq, zero_add]

/-- C7: `getTotalSpent(year, month)` sums `getCategorySpent` independently
over each active budget of that period, so two active budgets sharing a
category in the same month contribute that category's spend twice. -/
theorem getTotalSpent_spec :
    (∀ (budgets : List Budget) (transactions : List Transaction) (year month : Nat),
      getTotalSpent budgets transactions year month =
        ((budgets.filter fun b =>
            b.year == year && b.month == month && b.isActive).map fun b =>
          getCategorySpent transactions b.categoryId year month).sum) ∧
    (∀ (b1 b2 : Budget) (transactions : List Transaction) (year month : Nat),
      b1.year = year → b1.month = month → b1.isActive = true →
      b2.year = year → b2.month = month → b2.isActive = true →
      b2.categoryId = b1.categoryId →
      getTotalSpent [b1, b2] transactions year month =
        2 * getCategorySpent transactions b1.categoryId year month) := by
  have key : ∀ (budgets : List Budget) (transactions : List Transaction)
      (year month : Nat),
      getTotalSpent budgets transactions year month =
        ((budgets.filter fun b =>
            b.year == year && b.month == month && b.isActive).map fun b =>
          getCategorySpent transactions b.categoryId year month).sum := by
    intro budgets ts year month
    simp only [getTotalSpent]
    rw [foldl_add_eq, zero_add]
    refine congrArg List.sum (List.map_congr_left ?_)
    intro b hb
    rw [List.mem_filter] at hb
    have h := hb.2
    simp only [Bool.and_eq_true, beq_iff_eq] at h
    rw [h.1.1, h.1.2]
  refine ⟨key, ?_⟩
  intro b1 b2 ts year month h1y h1m h1a h2y h2m h2a hcat
  rw [key]
  simp [List.filter_cons, h1y, h1m, h1a, h2y, h2m, h2a, hcat]
  ring

/-- Witness for C7: two active March-2024 `food` budgets double-count the
single stored March `food` expense. -/
theorem getTotalSpent_spec_witness :
    (witBudget.year = 2024 ∧ witBudget.month = 3 ∧ witBudget.isActive = true ∧
      witBudget2.year = 2024 ∧ witBudget2.month = 3 ∧ witBudget2.isActive = true ∧
      witBudget2.categoryId = witBudget.categoryId) ∧
    getTotalSpent [witBudget, witBudget2] witTxs 2024 3 =
      2 * getCategorySpent witTxs witBudget.categoryId 2024 3 :=
  ⟨⟨rfl, rfl, rfl, rfl, rfl, rfl, rfl⟩,
    getTotalSpent_spec.2 witBudget witBudget2 witTxs 2024 3 rfl rfl rfl rfl rfl
      rfl rfl⟩

/-- C8: `getTotalDebt` is the absolute value of the summed balances of
exactly the active credit accounts in the negative; an active credit
account with nonnegative balance contributes nothing, and the −300/+50
example returns 300. -/
theorem getTotalDebt_spec :
    (∀ accounts : List Account,
      getTotalDebt accounts =
        |((accounts.filter fun a =>
            a.isActive && a.type == AccountType.credit && a.balance < 0).map
          Account.balance).sum|) ∧
    (∀ (accounts : List Account) (a : Account),
      a.isActive = true → a.type = AccountType.credit → 0 ≤ a.balance →
      getTotalDebt (a :: accounts) = getTotalDebt accounts) ∧
    getTotalDebt [witCreditNeg, witCreditPos] = 300 := by
  have key : ∀ accounts : List Account,
      getTotalDebt accounts =
        |((accounts.filter fun a =>
            a.isActive && a.type == AccountType.credit && a.balance < 0).map
          Account.balance).sum| := by
    intro accounts
    simp only [getTotalDebt]
    rw [foldl_add_eq, zero_add]
  refine ⟨key, ?_, ?_⟩
  · intro accounts a ha ht hb
    rw [key, key]
    congr 1
    rw [List.filter_cons]
    simp [ha, ht, not_lt.mpr hb]
  · norm_num [getTotalDebt, witCreditNeg, witCreditPos, List.filter_cons,
      List.foldl]

/-- Witness for C8: prepending the +50 active credit account leaves the
debt of the −300 account set unchanged. -/
theorem getTotalDebt_spec_witness :
    (witCreditPos.isActive = true ∧ witCreditPos.type = AccountType.credit ∧
      (0 : ℚ) ≤ witCreditPos.balance) ∧
    getTotalDebt (witCreditPos :: [witCreditNeg]) = getTotalDebt [witCreditNeg] :=
  ⟨⟨rfl, rfl, by norm_num [witCreditPos]⟩,
    getTotalDebt_spec.2.1 [witCreditNeg] witCreditPos rfl rfl
      (by norm_num [witCreditPos])⟩

/-- C9: `getTotalBalance` sums `balance` over exactly the active non-credit
accounts; any credit account, positive balance included, is excluded. -/
theorem getTotalBalance_spec :
    (∀ accounts : List Account,
      getTotalBalance accounts =
        ((accounts.filter fun a =>
            a.isActive && a.type != AccountType.credit).map Account.balance).sum) ∧
    (∀ (accounts : List Account) (a : Account),
      a.type = AccountType.credit →
      getTotalBalance (a :: accounts) = getTotalBalance accounts) := by
  have key : ∀ accounts : List Account,
      getTotalBalance accounts =
        ((accounts.filter fun a =>
            a.isActive && a.type != AccountType.credit).map Account.balance).sum := by
    intro accounts
    simp only [getTotalBalance]
    rw [foldl_add_eq, zero_add]
  refine ⟨key, ?_⟩
  intro accounts a ht
  rw [key, key]
  congr 1
  rw [List.filter_cons]
  simp [ht]

/-- Witness for C9: prepending a positive-balance credit account leaves the
total balance of a checking-account set unchanged. -/
theorem getTotalBalance_spec_witness :
    witCreditPos.type = AccountType.credit ∧
    getTotalBalance (witCreditPos :: [witChecking]) = getTotalBalance [witChecking] :=
  ⟨rfl, getTotalBalance_spec.2 [witChecking] witCreditPos rfl⟩

/-- C10: a successful `updateBudget` / `updateTransaction` whose returned
record matches no stored id leaves the collection completely unchanged: the
returned record is not inserted and no element is modified. -/
theorem update_unmatched_id_frame :
    (∀ (st : BudgetsState) (budgetId : String) (b : Budget),
      (∀ x ∈ st.budgets, x.id ≠ b.id) →
      (updateBudget st budgetId (Except.ok b)).1.budgets = st.budgets) ∧
    (∀ (st : TransactionsState) (transactionId : String) (t : Transaction),
      (∀ x ∈ st.transactions, x.id ≠ t.id) →
      (updateTransaction st transactionId (Except.ok t)).1.transactions =
        st.transactions) := by
  constructor
  · intro st budgetId b h
    show st.budgets.map (fun budget =>
      if budget.id = b.id then b else budget) = st.budgets
    exact map_replace_id_of_no_match Budget.id b.id b st.budgets h
  · intro st transactionId t h
    show st.transactions.map (fun transaction =>
      if transaction.id = t.id then t else transaction) = st.transactions
    exact map_replace_id_of_no_match Transaction.id t.id t st.transactions h

/-- Witness for C10: updating with a record of unmatched id `b999` leaves
the singleton budget collection unchanged. -/
theorem update_unmatched_id_frame_witness :
    (∀ x ∈ witBudgetsState.budgets, x.id ≠ witUnmatchedBudget.id) ∧
    (updateBudget witBudgetsState "b999"
        (Except.ok witUnmatchedBudget)).1.budgets = witBudgetsState.budgets :=
  ⟨by decide,
    update_unmatched_id_frame.1 witBudgetsState "b999" witUnmatchedBudget
      (by decide)⟩

end Financas
